import Mathlib

/-!
Shallow embedding of the `API-Agente` serverless service (academic-mentoring
product) of the Multi-Agent repository, together with proofs settling the
frozen claims about it.

The embedding follows the Python sources:
  * `API-Agente/config.py`                    — mode enumeration, table maps
  * `API-Agente/contextos/base_contexto.py`   — `ContextoFactory`, memory rendering
  * `API-Agente/contextos/estadisticas_contexto.py` — statistics aggregation/rendering
  * `API-Agente/contextos/*_contexto.py`      — per-mode `get_tablas_requeridas`
  * `API-Agente/dao/base.py`                  — `BaseDAO` store adapter
  * `API-Agente/dao/usuarios_dao.py`          — user repository
  * `API-Agente/handlers/agente_consultar.py` — consultation handler
  * `API-Agente/handlers/toggle_autorizacion.py` — authorization toggle handler
  * `API-Agente/utils/validators.py`          — field validators
  * `prompts/base_prompt.py`                  — prompt-assembler memory rendering

Numbers are modelled as rationals (`ℚ`): Python floats and DynamoDB decimals
are both value-level numbers here; the question of representation drift
between the two is exactly the subject of the round-trip claim and is treated
there, not silently assumed elsewhere.
-/

namespace MultiAgent

/-- A JSON-like runtime value, as handled by the Python handlers and DAOs.
`vnum` stands for a Python float/int, `vdec` for a `decimal.Decimal` as
returned by DynamoDB; both carry their numeric value. -/
inductive Val where
  | vstr : String → Val
  | vnum : ℚ → Val
  | vdec : ℚ → Val
  | vbool : Bool → Val
  | vnone : Val
  | vlist : List Val → Val
  | vdict : List (String × Val) → Val

/-- A Python dict with string keys, e.g. a DynamoDB item or a parsed JSON
body.  Keys are unique in Python dicts; we use first-occurrence lookup. -/
abbrev Rec := List (String × Val)

/-- Source: `d.get(k)` — `none` models Python `None` for a missing key. -/
def recGet (r : Rec) (k : String) : Option Val :=
  r.lookup k

/-- Source: `d.get(k, default)`. -/
def recGetD (r : Rec) (k : String) (dflt : Val) : Val :=
  (recGet r k).getD dflt

/-- Source: `d[k] = v` — Python dict assignment: replaces the value in place when the
key exists (keys are unique in a Python dict), appends the pair otherwise. -/
def recSet : Rec → String → Val → Rec
  | [], k, v => [(k, v)]
  | (k', v') :: t, k, v =>
      if k' = k then (k, v) :: t else (k', v') :: recSet t k v

/-- Python truthiness of a value (`if x:`). -/
def Val.truthy : Val → Bool
  | .vstr s => !s.isEmpty
  | .vnum q => decide (q ≠ 0)
  | .vdec q => decide (q ≠ 0)
  | .vbool b => b
  | .vnone => false
  | .vlist l => !l.isEmpty
  | .vdict l => !l.isEmpty

/-! ## Context factory — `contextos/base_contexto.py` and `config.py` -/

/-- Source: `Config.CONTEXTOS_DISPONIBLES` (`config.py`, lines 29-33): the fixed mode
enumeration of the academic product. -/
def CONTEXTOS_DISPONIBLES : List String :=
  ["MentorAcademico", "OrientadorVocacional", "Psicologo"]

/-- The context classes registered by `ContextoFactory._lazy_load_contextos`
(`contextos/base_contexto.py`, lines 176-189).  These are the health-product
classes; `ServiciosContexto` and `RecetasContexto` are not present in the
`API-Agente/contextos` package (their modules live in the sibling
`API-Agent/contextos` package, from which their `get_tablas_requeridas`
bodies are taken below). -/
inductive ContextoCls where
  | general
  | servicios
  | estadisticas
  | recetas
deriving DecidableEq, Repr

/-- Source: `ContextoFactory._contextos` after lazy loading
(`contextos/base_contexto.py`, lines 184-189). -/
def contextoFactoryTable : List (String × ContextoCls) :=
  [("General", ContextoCls.general),
   ("Servicios", ContextoCls.servicios),
   ("Estadisticas", ContextoCls.estadisticas),
   ("Recetas", ContextoCls.recetas)]

/-- Source: `get_tablas_requeridas` of each registered context class
(`contextos/general_contexto.py` line 18, `API-Agent/contextos/servicios_contexto.py`
line 17, `contextos/estadisticas_contexto.py` line 17,
`API-Agent/contextos/recetas_contexto.py` line 18). -/
def get_tablas_requeridas : ContextoCls → List String
  | .general => ["usuarios", "recetas", "memoria", "historial"]
  | .servicios => ["usuarios", "memoria", "servicios"]
  | .estadisticas => ["usuarios", "memoria", "historial"]
  | .recetas => ["usuarios", "memoria", "historial", "recetas"]

/-- The academic context classes that exist in the `API-Agente/contextos`
package (`mentor_academico_contexto.py` lines 26-27,
`orientador_vocacional_contexto.py` lines 27-28, `psicologo_contexto.py`
lines 28-35) but are never registered in `ContextoFactory._contextos`. -/
inductive AcademicoContextoCls where
  | mentorAcademico
  | orientadorVocacional
  | psicologo
deriving DecidableEq, Repr

/-- Source: `get_tablas_requeridas` of the academic context classes. -/
def academico_tablas_requeridas : AcademicoContextoCls → List String
  | .mentorAcademico => ["usuarios", "datos_academicos", "historial", "tareas"]
  | .orientadorVocacional =>
      ["usuarios", "datos_academicos", "datos_socioeconomicos", "historial"]
  | .psicologo =>
      ["usuarios", "datos_academicos", "datos_emocionales",
       "datos_socioeconomicos", "historial"]

/-- The invalid-context message raised by `ContextoFactory.get_contexto`
(`contextos/base_contexto.py`, lines 207-211); it enumerates the keys of the
factory table. -/
def contextoNoExisteMsg (nombre : String) : String :=
  "Contexto " ++ nombre ++ " no existe. Contextos disponibles: " ++
    String.intercalate ", " (contextoFactoryTable.map Prod.fst)

/-- Source: `ContextoFactory.get_contexto` (`contextos/base_contexto.py`,
lines 191-213): looks the requested name up in the factory table and
instantiates the class on success; raises `ValueError` otherwise.  The
`Except` error value models the raised `ValueError`. -/
def get_contexto (nombre : String) : Except String ContextoCls :=
  match contextoFactoryTable.lookup nombre with
  | some cls => Except.ok cls
  | none => Except.error (contextoNoExisteMsg nombre)

/-- Whether an `Except` result is a success. -/
def exceptOk {ε α : Type} : Except ε α → Bool
  | .ok _ => true
  | .error _ => false

/-! ## Validators — `utils/validators.py` -/

/-- A character matched by `[a-zA-Z0-9._%+-]` (the local part of the email
pattern in `validar_email`, `utils/validators.py` line 82). -/
def emailLocalChar (c : Char) : Bool :=
  c.isAlphanum || c = '.' || c = '_' || c = '%' || c = '+' || c = '-'

/-- A character matched by `[a-zA-Z0-9.-]` (the domain part). -/
def emailDomainChar (c : Char) : Bool :=
  c.isAlphanum || c = '.' || c = '-'

/-- The domain side of the pattern, `[a-zA-Z0-9.-]+\.[a-zA-Z]{2,}` matched to
the end of the string: split at the last dot, the suffix must be at least two
ASCII letters and the prefix non-empty over the domain alphabet.  (Because
the `{2,}` suffix cannot contain a dot, the regex necessarily splits at the
last dot, so this is the same language.) -/
def emailDomainOk (cs : List Char) : Bool :=
  let tld := (cs.reverse.takeWhile (fun c => c ≠ '.')).reverse
  let pre := cs.take (cs.length - tld.length - 1)
  cs.contains '.' && decide (1 ≤ pre.length) && pre.all emailDomainChar &&
    tld.all Char.isAlpha && decide (2 ≤ tld.length)

/-- Source: `validar_email` (`utils/validators.py`, lines 67-83): full match of
`^[a-zA-Z0-9._%+-]+@[a-zA-Z0-9.-]+\.[a-zA-Z]{2,}$`.  Since the local
alphabet does not contain `@`, the match splits at the first `@`. -/
def validar_email (email : String) : Bool :=
  let cs := email.data
  let loc := cs.takeWhile (fun c => c ≠ '@')
  match cs.drop loc.length with
  | '@' :: dom => !loc.isEmpty && loc.all emailLocalChar && emailDomainOk dom
  | _ => false

/-- Source: `validar_contexto` (`utils/validators.py`, lines 105-115): membership in
`Config.CONTEXTOS_DISPONIBLES`. -/
def validar_contexto (contexto : String) : Bool :=
  CONTEXTOS_DISPONIBLES.contains contexto

/-! ## Statistics context — `contextos/estadisticas_contexto.py` -/

/-- The tracked numeric metrics of a `wearables` / `sensores` sub-dict of a
health-history record; `none` models a missing field (`dict.get` returning
`None`). -/
structure Sensores where
  pasos : Option ℚ := none
  horas_de_sueno : Option ℚ := none
  ritmo_cardiaco : Option ℚ := none
deriving DecidableEq, Repr

/-- One record of the lookback-window history consumed by
`EstadisticasContexto._calcular_estadisticas`. -/
structure RegistroSalud where
  wearables : Sensores := {}
  sensores : Sensores := {}
deriving DecidableEq, Repr

/-- Python truthiness of `dict.get(...)` on a numeric field: `None`, `0`
and `0.0` are falsy. -/
def qTruthy : Option ℚ → Bool
  | none => false
  | some q => decide (q ≠ 0)

/-- Python `a or b`: the first operand when truthy, the second otherwise. -/
def pyOrQ (a b : Option ℚ) : Option ℚ :=
  if qTruthy a then a else b

/-- Source: `wearables.get('pasos') or sensores.get('pasos')`
(`estadisticas_contexto.py`, line 91). -/
def pasosDe (r : RegistroSalud) : Option ℚ :=
  pyOrQ r.wearables.pasos r.sensores.pasos

/-- Source: `wearables.get('horas_de_sueno') or sensores.get('horas_de_sueno')`
(line 96). -/
def suenoDe (r : RegistroSalud) : Option ℚ :=
  pyOrQ r.wearables.horas_de_sueno r.sensores.horas_de_sueno

/-- Source: `wearables.get('ritmo_cardiaco')` (line 101; the heart-rate metric reads
only the wearables sub-dict). -/
def fcDe (r : RegistroSalud) : Option ℚ :=
  r.wearables.ritmo_cardiaco

/-- The `if value: list.append(value)` accumulation of
`_calcular_estadisticas` (lines 86-103): a metric value is collected exactly
when it is truthy. -/
def collectMetric (get : RegistroSalud → Option ℚ) (hist : List RegistroSalud) :
    List ℚ :=
  hist.filterMap (fun r => if qTruthy (get r) then get r else none)

/-- Source: `pasos_list` accumulated over the history. -/
def pasosList (hist : List RegistroSalud) : List ℚ :=
  collectMetric pasosDe hist

/-- Source: `sueno_list` accumulated over the history. -/
def suenoList (hist : List RegistroSalud) : List ℚ :=
  collectMetric suenoDe hist

/-- Source: `fc_list` accumulated over the history. -/
def fcList (hist : List RegistroSalud) : List ℚ :=
  collectMetric fcDe hist

/-- Python `max(l)` on a non-empty list (`0` on `[]`, a case the source
guards with `if list else 0`). -/
def qMax : List ℚ → ℚ
  | [] => 0
  | x :: xs => xs.foldl max x

/-- Python `min(l)` on a non-empty list. -/
def qMin : List ℚ → ℚ
  | [] => 0
  | x :: xs => xs.foldl min x

/-- The statistics dict built by `_calcular_estadisticas` (lines 105-114).
Division is exact rational division; the source divides Python numbers. -/
structure Estadisticas where
  total_registros : ℕ
  pasos_promedio : ℚ
  pasos_max : ℚ
  pasos_min : ℚ
  sueno_promedio : ℚ
  sueno_max : ℚ
  sueno_min : ℚ
  fc_promedio : Option ℚ
deriving DecidableEq, Repr

/-- Source: `EstadisticasContexto._calcular_estadisticas` (lines 77-116): `none`
models the empty dict `{}` returned for an empty history; otherwise every
key is present, with `0` defaults for metrics without contributing values
and `None` (`none`) for the heart-rate mean. -/
def calcular_estadisticas (hist : List RegistroSalud) : Option Estadisticas :=
  if hist.isEmpty then none
  else
    let pl := pasosList hist
    let sl := suenoList hist
    let fl := fcList hist
    some {
      total_registros := hist.length
      pasos_promedio := if pl.isEmpty then 0 else pl.sum / (pl.length : ℚ)
      pasos_max := if pl.isEmpty then 0 else qMax pl
      pasos_min := if pl.isEmpty then 0 else qMin pl
      sueno_promedio := if sl.isEmpty then 0 else sl.sum / (sl.length : ℚ)
      sueno_max := if sl.isEmpty then 0 else qMax sl
      sueno_min := if sl.isEmpty then 0 else qMin sl
      fc_promedio := if fl.isEmpty then none else some (fl.sum / (fl.length : ℚ)) }

/-! ### Rendering — `EstadisticasContexto._formatear_datos_contexto`
(lines 51-75).  The f-string formats the step metrics with `:,.0f`
(thousands grouping, zero decimals, round-half-even) and the sleep metrics
with `:.1f`. -/

/-- Groups of three digits, least-significant first, over a reversed digit
list. -/
def chunk3 : List Char → List (List Char)
  | [] => []
  | [a] => [[a]]
  | [a, b] => [[a, b]]
  | a :: b :: c :: rest => [a, b, c] :: chunk3 rest

/-- Thousands grouping of a natural number, as Python `{:,}`. -/
def fmtThousands (n : ℕ) : String :=
  String.mk
    (List.intercalate [','] (((chunk3 (toString n).data.reverse).map List.reverse).reverse))

/-- Round-half-even, the rounding used by Python `format`. -/
def roundHalfEven (q : ℚ) : ℤ :=
  let f := ⌊q⌋
  let frac := q - f
  if frac < 1/2 then f
  else if 1/2 < frac then f + 1
  else if f % 2 = 0 then f else f + 1

/-- Python `f"{x:,.0f}"` on a non-negative value. -/
def fmtMiles0 (q : ℚ) : String :=
  let n := roundHalfEven q
  (if n < 0 then "-" else "") ++ fmtThousands n.natAbs

/-- Python `f"{x:.1f}"` on a non-negative value. -/
def fmtF1 (q : ℚ) : String :=
  let n := (roundHalfEven (10 * q)).natAbs
  (if roundHalfEven (10 * q) < 0 then "-" else "") ++
    toString (n / 10) ++ "." ++ toString (n % 10)

/-- Rendering of `estadisticas.get('fc_promedio', 'N/A')`: the key is always
present in a non-empty statistics dict, so the rendered text is the value —
`None` when no heart-rate value contributed, otherwise the number.  (The
source prints Python `str(float)` for a number; the model prints the exact
rational, a difference no claim depends on.) -/
def fcStr : Option ℚ → String
  | none => "None"
  | some q =>
      if q.den = 1 then toString q.num
      else toString q.num ++ "/" ++ toString q.den

/-- The no-data sentence returned when the statistics dict is empty. -/
def noDataEstadisticasMsg : String :=
  "No hay suficientes datos para generar estadísticas."

/-- Source: `EstadisticasContexto._formatear_datos_contexto` (lines 51-75), applied
to the statistics dict of the context-data map. -/
def formatear_datos_contexto (stats : Option Estadisticas) : String :=
  match stats with
  | none => noDataEstadisticasMsg
  | some e =>
      "\nESTADÍSTICAS DEL ÚLTIMO MES:\n\nActividad Física:\n  • Promedio de pasos diarios: "
        ++ fmtMiles0 e.pasos_promedio
        ++ "\n  • Máximo de pasos en un día: " ++ fmtMiles0 e.pasos_max
        ++ "\n  • Mínimo de pasos en un día: " ++ fmtMiles0 e.pasos_min
        ++ "\n\nSueño:\n  • Promedio de horas de sueño: " ++ fmtF1 e.sueno_promedio
        ++ "h\n  • Mejor noche: " ++ fmtF1 e.sueno_max
        ++ "h\n  • Peor noche: " ++ fmtF1 e.sueno_min
        ++ "h\n\nRitmo Cardíaco (cuando disponible):\n  • Promedio: "
        ++ fcStr e.fc_promedio
        ++ " bpm\n  \nRegistros totales: " ++ toString e.total_registros
        ++ " días\n"

/-! ## Recent-interaction rendering — `contextos/base_contexto.py`
lines 107-122 and `prompts/base_prompt.py` lines 113-128. -/

/-- One persisted interaction-summary record as read by the memory
formatters; `none` models a missing key (the `dict.get` default applies). -/
structure MemoriaRec where
  fecha : Option String := none
  resumen_conversacion : Option String := none
  intencion_detectada : Option String := none
deriving DecidableEq, Repr

/-- The first `n` characters of a string — Python slice `s[:n]`. -/
def strTake (n : ℕ) (s : String) : String :=
  String.mk (s.data.take n)

/-- One numbered line of `BaseContexto._formatear_memoria`
(`base_contexto.py`, lines 114-120). -/
def memoriaLineaBC (idx : ℕ) (mem : MemoriaRec) : String :=
  toString idx ++ ". [" ++ mem.fecha.getD "Fecha desconocida"
    ++ "] - Intención: " ++ mem.intencion_detectada.getD "No detectada"
    ++ "\n   Resumen: " ++ mem.resumen_conversacion.getD "Sin resumen"

/-- Source: `BaseContexto._formatear_memoria` (`base_contexto.py`, lines 107-122):
renders `memoria[:5]` numbered from 1; the summary text is interpolated
unmodified. -/
def formatear_memoria_bc (memoria : List MemoriaRec) : String :=
  if memoria.isEmpty then "No hay conversaciones previas registradas."
  else
    String.intercalate "\n"
      (((memoria.take 5).enumFrom 1).map (fun p => memoriaLineaBC p.1 p.2))

/-- One block of `BasePrompt._formatear_memoria` (`prompts/base_prompt.py`,
lines 120-126): the date is sliced to 10 characters
(`mem.get('fecha', 'Fecha desconocida')[:10]`), the summary is interpolated
unmodified. -/
def memoriaBloqueBP (idx : ℕ) (mem : MemoriaRec) : String :=
  toString idx ++ ". [" ++ strTake 10 (mem.fecha.getD "Fecha desconocida")
    ++ "] Intención: " ++ mem.intencion_detectada.getD "No identificada"
    ++ "\n   " ++ mem.resumen_conversacion.getD "Sin resumen" ++ "\n\n"

/-- Source: `BasePrompt._formatear_memoria` (`prompts/base_prompt.py`,
lines 113-128). -/
def formatear_memoria_bp (memoria : List MemoriaRec) : String :=
  if memoria.isEmpty then ""
  else
    "CONTEXTO DE CONVERSACIONES PREVIAS:\n\n"
      ++ String.join (((memoria.take 5).enumFrom 1).map
            (fun p => memoriaBloqueBP p.1 p.2))

/-! ## Store adapter — `dao/base.py` (`BaseDAO`) -/

mutual
/-- Source: `BaseDAO._decimal_to_float` (`dao/base.py`, lines 187-196): recursively
replaces every `Decimal` leaf by the float of the same value inside lists
and dicts. -/
def decimal_to_float : Val → Val
  | .vstr s => .vstr s
  | .vnum q => .vnum q
  | .vdec q => .vnum q
  | .vbool b => .vbool b
  | .vnone => .vnone
  | .vlist l => .vlist (decimalToFloatList l)
  | .vdict d => .vdict (decimalToFloatDict d)

/-- Source: `_decimal_to_float` on a list value. -/
def decimalToFloatList : List Val → List Val
  | [] => []
  | v :: vs => decimal_to_float v :: decimalToFloatList vs

/-- Source: `_decimal_to_float` on a dict value. -/
def decimalToFloatDict : List (String × Val) → List (String × Val)
  | [] => []
  | (k, v) :: ps => (k, decimal_to_float v) :: decimalToFloatDict ps
end

mutual
/-- Source: `BaseDAO._float_to_decimal` (`dao/base.py`, lines 198-207): recursively
replaces every float leaf by `Decimal(str(x))`.  The model carries the value
of that decimal literal; whether it coincides with the float's value is
precisely the round-trip question of the numeric-encoding claim and is not
assumed by any theorem below. -/
def float_to_decimal : Val → Val
  | .vstr s => .vstr s
  | .vnum q => .vdec q
  | .vdec q => .vdec q
  | .vbool b => .vbool b
  | .vnone => .vnone
  | .vlist l => .vlist (floatToDecimalList l)
  | .vdict d => .vdict (floatToDecimalDict d)

/-- Source: `_float_to_decimal` on a list value. -/
def floatToDecimalList : List Val → List Val
  | [] => []
  | v :: vs => float_to_decimal v :: floatToDecimalList vs

/-- Source: `_float_to_decimal` on a dict value. -/
def floatToDecimalDict : List (String × Val) → List (String × Val)
  | [] => []
  | (k, v) :: ps => (k, float_to_decimal v) :: floatToDecimalDict ps
end

/-- The underlying managed key-value table, as seen through `boto3`:
each primitive either answers or raises an I/O fault (`Except.error`).
`scanRaw` returns the complete scan result (the source's
`LastEvaluatedKey` pagination loop assembles the same list page by page). -/
structure DynamoTable where
  hashKeyName : String
  rangeKeyName : Option String
  getItemRaw : Rec → Except String (Option Rec)
  queryRaw : String → Option ℕ → Bool → Except String (List Rec)
  scanRaw : Option ℕ → Option (Rec → Bool) → Except String (List Rec)
  putRaw : Rec → Except String Unit
  deleteRaw : Rec → Except String Unit

/-- The `Key=` dict built by `get_by_key` / `delete_item`
(`dao/base.py`, lines 31-38 and 149-154): the partition key always, the sort
key only when given (truthy) and the table has one. -/
def buildKey (t : DynamoTable) (pk : String) (sk : Option String) : Rec :=
  let base : Rec := [(t.hashKeyName, Val.vstr pk)]
  match sk, t.rangeKeyName with
  | some s, some rn => if s.isEmpty then base else base ++ [(rn, Val.vstr s)]
  | _, _ => base

/-- Source: `BaseDAO.get_by_key` (`dao/base.py`, lines 19-44): any exception is
caught and `None` returned; on success the item (or `None`) is passed
through `_decimal_to_float`. -/
def get_by_key (t : DynamoTable) (pk : String) (sk : Option String) :
    Option Rec :=
  match t.getItemRaw (buildKey t pk sk) with
  | .error _ => none
  | .ok it => it.map decimalToFloatDict

/-- Source: `BaseDAO.query_by_partition` (`dao/base.py`, lines 46-84): any exception
is caught and `[]` returned.  (The optional `sort_key_condition` argument,
always `None` in this service, is folded into `queryRaw`.) -/
def query_by_partition (t : DynamoTable) (pv : String) (lim : Option ℕ)
    (fwd : Bool) : List Rec :=
  match t.queryRaw pv lim fwd with
  | .error _ => []
  | .ok items => items.map decimalToFloatDict

/-- Source: `BaseDAO.scan_all` (`dao/base.py`, lines 86-118): any exception is
caught and `[]` returned. -/
def scan_all (t : DynamoTable) (lim : Option ℕ) (fe : Option (Rec → Bool)) :
    List Rec :=
  match t.scanRaw lim fe with
  | .error _ => []
  | .ok items => items.map decimalToFloatDict

/-- Source: `BaseDAO.put_item` (`dao/base.py`, lines 120-135): writes the item
converted by `_float_to_decimal`; any exception is caught and `False`
returned. -/
def put_item (t : DynamoTable) (item : Rec) : Bool :=
  match t.putRaw (floatToDecimalDict item) with
  | .error _ => false
  | .ok _ => true

/-- Source: `BaseDAO.delete_item` (`dao/base.py`, lines 137-160): any exception is
caught and `False` returned. -/
def delete_item (t : DynamoTable) (pk : String) (sk : Option String) : Bool :=
  match t.deleteRaw (buildKey t pk sk) with
  | .error _ => false
  | .ok _ => true

/-! ## User repository and request handlers -/

/-- Whether a scanned item satisfies `Attr('correo').eq(correo)`: the
attribute exists and is that exact string. -/
def correoEq (u : Rec) (correo : String) : Bool :=
  match recGet u "correo" with
  | some (.vstr s) => s = correo
  | _ => false

/-- Source: `UsuariosDAO.get_usuario_por_correo` (`dao/usuarios_dao.py`,
lines 16-34): `scan_all(filter_expression=Attr('correo').eq(correo),
limit=1)`.  DynamoDB applies `Limit` before the filter, and the pagination
loop of `scan_all` keeps fetching while fewer than `limit` items matched, so
the net effect over the table (modelled as a list in scan order) is the
first matching record, or `None`. -/
def get_usuario_por_correo (usuarios : List Rec) (correo : String) :
    Option Rec :=
  usuarios.find? (fun u => correoEq u correo)

/-- The user table contents, in store-native scan order.  (Interaction
records are only appended by the handlers; reads of the history table do not
change state, so the handler models track the sequence of put-item calls
rather than a second table.) -/
structure Store where
  usuarios : List Rec

/-- An HTTP-shaped response as built by `formatear_respuesta_error` /
`formatear_respuesta_exitosa` (`utils/formatters.py`): status code, the
`mensaje` field of the error body, and its `detalles` field (empty on
success). -/
structure RespuestaHttp where
  statusCode : ℕ
  mensaje : String
  detalles : String
deriving DecidableEq, Repr

/-- Python `str.strip()`: drop whitespace from both ends. -/
def pyStrip (s : String) : String :=
  String.mk
    (((s.data.dropWhile Char.isWhitespace).reverse.dropWhile
        Char.isWhitespace).reverse)

/-- Source: `len(s.strip()) == 0` — the blank-message test of the handler. -/
def strBlank (s : String) : Bool :=
  (pyStrip s).data.isEmpty

/-- Python truthiness of `body.get(field)` for a string-valued field:
falsy when the key is missing (`None`) or the string is empty. -/
def optTruthy : Option String → Bool
  | none => false
  | some s =>
      match s.data with
      | [] => false
      | _ :: _ => true

/-- The parsed JSON body of a consultation request
(`handlers/agente_consultar.py`).  A non-string value in one of these fields
would raise inside the handler and fall to its generic 500 clause; the
claims quantify over string-or-absent fields. -/
structure ConsultaBody where
  correo : Option String := none
  contexto : Option String := none
  mensaje : Option String := none
deriving DecidableEq, Repr

/-- Outcome of one consultation invocation: the response, the sequence of
interaction records passed to `put_item` on the history table, and whether
the completion client was invoked. -/
structure ConsultaOutcome where
  resp : RespuestaHttp
  writes : List Rec
  geminiCalled : Bool

/-- The summarisation prompt of `AgenteService.generar_resumen_interaccion`
(`services/agente_service.py`, lines 151-168), which slices the user message
to 200 and the agent answer to 300 characters. -/
def resumenPrompt (contexto mensaje respuesta : String) : String :=
  "Genera un resumen muy conciso (máximo 150 caracteres) de esta interacción:\n\nContexto del agente: "
    ++ contexto ++ "\nUsuario preguntó: " ++ strTake 200 mensaje
    ++ "\nAgente respondió: " ++ strTake 300 respuesta ++ "\n\nResumen:\n"

/-- The post-processing of the generated summary
(`services/agente_service.py`, lines 177-180): strip, replace newlines by
spaces, cap at 250 characters with an ellipsis. -/
def recortarResumen (s : String) : String :=
  let t := (pyStrip s).data.map (fun c => if c = '\n' then ' ' else c)
  if 250 < t.length then String.mk (t.take 247) ++ "..." else String.mk t

/-- Source: `handlers/agente_consultar.handler` (lines 33-166).  `gemini` is the
completion client (`GeminiService.generar_respuesta`), `newId` the generated
row key (`uuid.uuid4()`).  The guard sequence follows the source: email
check, context check, message checks, user lookup (404), authorization gate
(403), then `AgenteService.procesar_consulta`, whose call to
`ContextoFactory.get_contexto` determines the rest: a `ValueError` from the
factory reaches the handler's `except ValueError` clause as a 400; on
success the two completion calls run and the summary record is written. -/
def agente_consultar (gemini : String → String) (newId : String)
    (body : ConsultaBody) (store : Store) : ConsultaOutcome :=
  let correo := body.correo.getD ""
  let contexto := body.contexto.getD ""
  let mensaje := body.mensaje.getD ""
  if !optTruthy body.correo || !validar_email correo then
    ⟨⟨400, "Email inválido", "Se requiere un email válido"⟩, [], false⟩
  else if !optTruthy body.contexto || !validar_contexto contexto then
    ⟨⟨400, "Contexto inválido",
      "El contexto debe ser uno de: " ++ String.intercalate ", " CONTEXTOS_DISPONIBLES⟩,
     [], false⟩
  else if !optTruthy body.mensaje || strBlank mensaje then
    ⟨⟨400, "Mensaje requerido", "Se requiere un mensaje no vacío"⟩, [], false⟩
  else if 5000 < mensaje.length then
    ⟨⟨400, "Mensaje muy largo", "El mensaje no puede exceder 5000 caracteres"⟩,
     [], false⟩
  else
    match get_usuario_por_correo store.usuarios correo with
    | none =>
        ⟨⟨404, "Usuario no encontrado", "No existe usuario con correo " ++ correo⟩,
         [], false⟩
    | some usuario =>
        if !(recGetD usuario "autorizacion" (Val.vbool false)).truthy then
          ⟨⟨403, "Autorización requerida",
            "El usuario no ha autorizado la recopilación de datos. Debe activar la autorización antes de usar los agentes."⟩,
           [], false⟩
        else
          match recGet usuario "id" with
          | none =>
              -- `usuario['id']` raises `KeyError`, handled by the generic clause
              ⟨⟨500, "Error interno del servidor",
                "Ocurrió un error procesando la consulta"⟩, [], false⟩
          | some uid =>
              match get_contexto contexto with
              | .error msg => ⟨⟨400, "Error de validación", msg⟩, [], false⟩
              | .ok _cls =>
                  let respuesta := gemini mensaje
                  let resumen :=
                    recortarResumen (gemini (resumenPrompt contexto mensaje respuesta))
                  let registro : Rec :=
                    [("usuarioId", uid), ("id", Val.vstr newId),
                     ("texto", Val.vstr resumen)]
                  ⟨⟨200, "", ""⟩, [registro], true⟩

/-- The parsed JSON body of a toggle-authorization request
(`handlers/toggle_autorizacion.py`).  The `autorizacion` field may hold any
JSON value; the handler insists on a boolean. -/
structure ToggleBody where
  correo : Option String := none
  autorizacion : Option Val := none

/-- Outcome of one toggle invocation: the response and the records passed to
`put_item` on the user table. -/
structure ToggleOutcome where
  resp : RespuestaHttp
  writes : List Rec

/-- Source: `autorizacion is None or not isinstance(autorizacion, bool)` — the field
is rejected unless it is exactly a JSON boolean. -/
def isBoolVal : Option Val → Bool
  | some (.vbool _) => true
  | _ => false

/-- The required-field check of `UsuariosDAO.actualizar_usuario`
(`dao/usuarios_dao.py`, lines 72-77): `campo in usuario` key presence. -/
def camposUsuarioOk (u : Rec) : Bool :=
  ["id", "correo", "contrasena", "autorizacion"].all
    (fun k => (recGet u k).isSome)

/-- Source: `handlers/toggle_autorizacion.handler` (lines 28-105): validates the
fields, looks the user up by email, mutates `usuario['autorizacion']` on the
record just read, and writes the whole record back through
`UsuariosDAO.actualizar_usuario` (which is `put_item` guarded by the
required-field check). -/
def toggle_autorizacion (body : ToggleBody) (store : Store) : ToggleOutcome :=
  let correo := body.correo.getD ""
  if !optTruthy body.correo || !validar_email correo then
    ⟨⟨400, "Email inválido", "Se requiere un email válido"⟩, []⟩
  else if !isBoolVal body.autorizacion then
    ⟨⟨400, "Campo autorizacion inválido",
      "El campo autorizacion debe ser true o false"⟩, []⟩
  else
    match body.autorizacion, get_usuario_por_correo store.usuarios correo with
    | some (.vbool b), some usuario =>
        let usuario' := recSet usuario "autorizacion" (Val.vbool b)
        if camposUsuarioOk usuario' then
          ⟨⟨200, "", ""⟩, [usuario']⟩
        else
          ⟨⟨500, "Error al actualizar",
            "No se pudo actualizar el estado de autorización"⟩, []⟩
    | _, none =>
        ⟨⟨404, "Usuario no encontrado", "No existe usuario con correo " ++ correo⟩,
         []⟩
    | _, _ =>
        -- unreachable: `isBoolVal` guarantees the first component
        ⟨⟨500, "Error interno del servidor",
          "Ocurrió un error procesando la solicitud"⟩, []⟩

/-! ## Substring predicate and helper lemmas -/

/-- Tests whether `pat` is a prefix of `s` (character lists). -/
def beginsL (s pat : List Char) : Bool :=
  match pat, s with
  | [], _ => true
  | _ :: _, [] => false
  | p :: ps, c :: cs => decide (c = p) && beginsL cs ps

/-- Tests whether `pat` occurs contiguously somewhere in `s` (character lists). -/
def hasSubL : List Char → List Char → Bool
  | [], pat => pat.isEmpty
  | c :: cs, pat => beginsL (c :: cs) pat || hasSubL cs pat

/-- Tests whether `pat` occurs contiguously in the string `s`. -/
def hasSub (s pat : String) : Bool :=
  hasSubL s.data pat.data

theorem beginsL_append_self (pat rest : List Char) :
    beginsL (pat ++ rest) pat = true := by
  induction pat with
  | nil => simp [beginsL]
  | cons p ps ih => simp [beginsL, ih]

theorem hasSubL_of_beginsL (s pat : List Char) (h : beginsL s pat = true) :
    hasSubL s pat = true := by
  cases s with
  | nil => cases pat with
    | nil => rfl
    | cons p ps => simp [beginsL] at h
  | cons c cs => simp [hasSubL, h]

theorem hasSubL_append_left (pre s pat : List Char)
    (h : hasSubL s pat = true) : hasSubL (pre ++ s) pat = true := by
  induction pre with
  | nil => simpa using h
  | cons c cs ih => simp [hasSubL, ih]

theorem hasSubL_mid (pre pat rest : List Char) :
    hasSubL (pre ++ (pat ++ rest)) pat = true :=
  hasSubL_append_left pre _ pat
    (hasSubL_of_beginsL _ pat (beginsL_append_self pat rest))

/-- A pattern occurring between two other pieces of a string occurs in the
whole string. -/
theorem hasSub_sandwich (pre pat rest : String) :
    hasSub (pre ++ pat ++ rest) pat = true := by
  have h : (pre ++ pat ++ rest).data = pre.data ++ (pat.data ++ rest.data) := by
    simp [String.data_append]
  simp only [hasSub, h]
  exact hasSubL_mid pre.data pat.data rest.data

/-! ### Small facts about the validators and dict updates -/

theorem optTruthy_of_validar_email (c : String) (h : validar_email c = true) :
    optTruthy (some c) = true := by
  cases c with
  | mk l =>
      cases l with
      | nil => exact absurd h (by decide)
      | cons a t => rfl

theorem optTruthy_of_validar_contexto (n : String)
    (h : validar_contexto n = true) : optTruthy (some n) = true := by
  have hm : n ∈ CONTEXTOS_DISPONIBLES := by
    simpa [validar_contexto] using h
  simp [CONTEXTOS_DISPONIBLES] at hm
  rcases hm with h | h | h <;> subst h <;> decide

theorem optTruthy_of_not_blank (m : String) (h : strBlank m = false) :
    optTruthy (some m) = true := by
  cases m with
  | mk l =>
      cases l with
      | nil => exact absurd h (by decide)
      | cons a t => rfl

theorem recGet_recSet_same (r : Rec) (k : String) (v : Val) :
    recGet (recSet r k v) k = some v := by
  induction r with
  | nil => simp [recSet, recGet, List.lookup]
  | cons hd t ih =>
      obtain ⟨k', v'⟩ := hd
      by_cases hk : k' = k
      · subst hk; simp [recSet, recGet, List.lookup]
      · have hb : (k == k') = false := by simp [Ne.symm hk]
        simp only [recSet, if_neg hk]
        simpa [recGet, List.lookup, hb] using ih

theorem recGet_recSet_other (r : Rec) (k : String) (v : Val) (k' : String)
    (h : k' ≠ k) : recGet (recSet r k v) k' = recGet r k' := by
  have hbk : (k' == k) = false := by simp [h]
  induction r with
  | nil => simp [recSet, recGet, List.lookup, hbk]
  | cons hd t ih =>
      obtain ⟨k₀, v₀⟩ := hd
      by_cases hk : k₀ = k
      · subst hk
        simp [recSet, recGet, List.lookup, hbk]
      · simp only [recSet, if_neg hk]
        by_cases hk' : k₀ = k'
        · subst hk'; simp [recGet, List.lookup]
        · have hb' : (k' == k₀) = false := by simp [Ne.symm hk']
          simpa [recGet, List.lookup, hb'] using ih

/-! # Claims -/

/-! ## C1 -/

/-- C1: the claim states that every mode name in
`Config.CONTEXTOS_DISPONIBLES` resolves through
`ContextoFactory.get_contexto` to a context whose `get_tablas_requeridas`
is a non-empty, call-stable list.  The code violates this: the factory
registers only the health-product mode names
(`General`, `Servicios`, `Estadisticas`, `Recetas`), so each of the three
configured academic modes raises the invalid-context `ValueError` instead of
resolving — even though the academic context classes exist in the same
package with non-empty table lists and are plainly the intended targets. -/
theorem C1_config_modes_unresolvable :
    (CONTEXTOS_DISPONIBLES.all
        (fun m => !exceptOk (get_contexto m))) = true ∧
    academico_tablas_requeridas AcademicoContextoCls.mentorAcademico ≠ [] ∧
    academico_tablas_requeridas AcademicoContextoCls.orientadorVocacional ≠ [] ∧
    academico_tablas_requeridas AcademicoContextoCls.psicologo ≠ [] := by
  decide

/-! ## C7 -/

/-- C7: every store-adapter operation catches an I/O fault of the
underlying store and returns its default value (`None`, `[]`, `False`)
instead of propagating the exception. -/
theorem C7_faults_yield_defaults (t : DynamoTable) (pk pv : String)
    (sk : Option String) (lim : Option ℕ) (fwd : Bool)
    (fe : Option (Rec → Bool)) (item : Rec)
    (h1 : exceptOk (t.getItemRaw (buildKey t pk sk)) = false)
    (h2 : exceptOk (t.queryRaw pv lim fwd) = false)
    (h3 : exceptOk (t.scanRaw lim fe) = false)
    (h4 : exceptOk (t.putRaw (floatToDecimalDict item)) = false)
    (h5 : exceptOk (t.deleteRaw (buildKey t pk sk)) = false) :
    get_by_key t pk sk = none ∧
    query_by_partition t pv lim fwd = [] ∧
    scan_all t lim fe = [] ∧
    put_item t item = false ∧
    delete_item t pk sk = false := by
  refine ⟨?_, ?_, ?_, ?_, ?_⟩
  · cases hx : t.getItemRaw (buildKey t pk sk) with
    | error e => simp [get_by_key, hx]
    | ok v => rw [hx] at h1; exact absurd h1 (by simp [exceptOk])
  · cases hx : t.queryRaw pv lim fwd with
    | error e => simp [query_by_partition, hx]
    | ok v => rw [hx] at h2; exact absurd h2 (by simp [exceptOk])
  · cases hx : t.scanRaw lim fe with
    | error e => simp [scan_all, hx]
    | ok v => rw [hx] at h3; exact absurd h3 (by simp [exceptOk])
  · cases hx : t.putRaw (floatToDecimalDict item) with
    | error e => simp [put_item, hx]
    | ok v => rw [hx] at h4; exact absurd h4 (by simp [exceptOk])
  · cases hx : t.deleteRaw (buildKey t pk sk) with
    | error e => simp [delete_item, hx]
    | ok v => rw [hx] at h5; exact absurd h5 (by simp [exceptOk])

/-- A table whose every primitive raises an I/O fault. -/
def tablaCaida : DynamoTable where
  hashKeyName := "id"
  rangeKeyName := none
  getItemRaw := fun _ => Except.error "io"
  queryRaw := fun _ _ _ => Except.error "io"
  scanRaw := fun _ _ => Except.error "io"
  putRaw := fun _ => Except.error "io"
  deleteRaw := fun _ => Except.error "io"

/-- Witness for C7 at a concrete always-faulting table. -/
theorem C7_faults_yield_defaults_witness :
    exceptOk (tablaCaida.getItemRaw (buildKey tablaCaida "u1" none)) = false ∧
    (get_by_key tablaCaida "u1" none = none ∧
     query_by_partition tablaCaida "u1" none false = [] ∧
     scan_all tablaCaida none none = [] ∧
     put_item tablaCaida [] = false ∧
     delete_item tablaCaida "u1" none = false) :=
  ⟨rfl, C7_faults_yield_defaults tablaCaida "u1" "u1" none none false none []
    rfl rfl rfl rfl rfl⟩

/-! ## C8 -/

/-- C8: a consultation request that passes field validation but whose
owner email matches no stored user yields a 404 response, writes no
interaction record, and never reaches the completion client. -/
theorem C8_unknown_user_404_no_write (gemini : String → String)
    (newId c n m : String) (store : Store)
    (hc : validar_email c = true)
    (hn : validar_contexto n = true)
    (hm : strBlank m = false)
    (hml : m.length ≤ 5000)
    (hu : get_usuario_por_correo store.usuarios c = none) :
    agente_consultar gemini newId ⟨some c, some n, some m⟩ store =
      ⟨⟨404, "Usuario no encontrado", "No existe usuario con correo " ++ c⟩,
       [], false⟩ := by
  have hce := optTruthy_of_validar_email c hc
  have hne := optTruthy_of_validar_contexto n hn
  have hme := optTruthy_of_not_blank m hm
  simp [agente_consultar, hce, hne, hme, hc, hn, hm, Nat.not_lt.mpr hml, hu]

/-- Witness for C8: a valid request against an empty user table. -/
theorem C8_unknown_user_404_no_write_witness :
    validar_email "a@b.com" = true ∧
    validar_contexto "MentorAcademico" = true ∧
    strBlank "hola" = false ∧
    ("hola" : String).length ≤ 5000 ∧
    get_usuario_por_correo (Store.mk []).usuarios "a@b.com" = none ∧
    agente_consultar (fun _ => "") "r1"
        ⟨some "a@b.com", some "MentorAcademico", some "hola"⟩ (Store.mk []) =
      ⟨⟨404, "Usuario no encontrado", "No existe usuario con correo " ++ "a@b.com"⟩,
       [], false⟩ :=
  ⟨by decide, by decide, by decide, by decide, rfl,
   C8_unknown_user_404_no_write (fun _ => "") "r1" "a@b.com" "MentorAcademico"
     "hola" (Store.mk []) (by decide) (by decide) (by decide) (by decide) rfl⟩

/-! ## C9 -/

/-- C9: for an existing user whose data-collection-authorization flag is
absent or falsy, a consultation request that passes field validation is
rejected with a 403, with no interaction record written and no completion
call made — the authorization gate runs before the context resolver and the
completion client. -/
theorem C9_unauthorized_403_no_processing (gemini : String → String)
    (newId c n m : String) (store : Store) (usuario : Rec)
    (hc : validar_email c = true)
    (hn : validar_contexto n = true)
    (hm : strBlank m = false)
    (hml : m.length ≤ 5000)
    (hu : get_usuario_por_correo store.usuarios c = some usuario)
    (hauth : (recGetD usuario "autorizacion" (Val.vbool false)).truthy = false) :
    agente_consultar gemini newId ⟨some c, some n, some m⟩ store =
      ⟨⟨403, "Autorización requerida",
        "El usuario no ha autorizado la recopilación de datos. Debe activar la autorización antes de usar los agentes."⟩,
       [], false⟩ := by
  have hce := optTruthy_of_validar_email c hc
  have hne := optTruthy_of_validar_contexto n hn
  have hme := optTruthy_of_not_blank m hm
  simp [agente_consultar, hce, hne, hme, hc, hn, hm, Nat.not_lt.mpr hml, hu,
    hauth]

/-- A stored user without the `autorizacion` attribute. -/
def usuarioSinPermiso : Rec :=
  [("id", Val.vstr "u1"), ("correo", Val.vstr "a@b.com"),
   ("contrasena", Val.vstr "pw")]

/-- Witness for C9: an existing user whose flag is absent. -/
theorem C9_unauthorized_403_no_processing_witness :
    validar_email "a@b.com" = true ∧
    validar_contexto "Psicologo" = true ∧
    strBlank "hola" = false ∧
    ("hola" : String).length ≤ 5000 ∧
    get_usuario_por_correo (Store.mk [usuarioSinPermiso]).usuarios "a@b.com"
      = some usuarioSinPermiso ∧
    (recGetD usuarioSinPermiso "autorizacion" (Val.vbool false)).truthy = false ∧
    agente_consultar (fun _ => "") "r1"
        ⟨some "a@b.com", some "Psicologo", some "hola"⟩
        (Store.mk [usuarioSinPermiso]) =
      ⟨⟨403, "Autorización requerida",
        "El usuario no ha autorizado la recopilación de datos. Debe activar la autorización antes de usar los agentes."⟩,
       [], false⟩ :=
  ⟨by decide, by decide, by decide, by decide, rfl, rfl,
   C9_unauthorized_403_no_processing (fun _ => "") "r1" "a@b.com" "Psicologo"
     "hola" (Store.mk [usuarioSinPermiso]) usuarioSinPermiso
     (by decide) (by decide) (by decide) (by decide) rfl rfl⟩

/-! ## C10 -/

/-- C10: the toggle-authorization handler writes back exactly the record
it read with only the `autorizacion` field replaced by the request's
boolean; every other field keeps its previous value. -/
theorem C10_toggle_only_changes_autorizacion (c : String) (b : Bool)
    (store : Store) (usuario : Rec) (k : String)
    (hc : validar_email c = true)
    (hu : get_usuario_por_correo store.usuarios c = some usuario)
    (hcampos : camposUsuarioOk (recSet usuario "autorizacion" (Val.vbool b)) = true)
    (hk : k ≠ "autorizacion") :
    (toggle_autorizacion ⟨some c, some (Val.vbool b)⟩ store).writes
        = [recSet usuario "autorizacion" (Val.vbool b)] ∧
    (toggle_autorizacion ⟨some c, some (Val.vbool b)⟩ store).resp.statusCode
        = 200 ∧
    recGet (recSet usuario "autorizacion" (Val.vbool b)) "autorizacion"
        = some (Val.vbool b) ∧
    recGet (recSet usuario "autorizacion" (Val.vbool b)) k = recGet usuario k := by
  have hce := optTruthy_of_validar_email c hc
  refine ⟨?_, ?_, recGet_recSet_same usuario "autorizacion" (Val.vbool b),
    recGet_recSet_other usuario "autorizacion" (Val.vbool b) k hk⟩
  · simp [toggle_autorizacion, hce, hc, isBoolVal, hu, hcampos]
  · simp [toggle_autorizacion, hce, hc, isBoolVal, hu, hcampos]

/-- A stored user with extra attributes beyond the required ones. -/
def usuarioAna : Rec :=
  [("id", Val.vstr "u1"), ("correo", Val.vstr "ana@example.com"),
   ("contrasena", Val.vstr "pw"), ("autorizacion", Val.vbool true),
   ("nombre", Val.vstr "Ana"), ("role", Val.vstr "USER")]

/-- Witness for C10: toggling Ana's flag off rewrites only `autorizacion`;
her `nombre` attribute is untouched. -/
theorem C10_toggle_only_changes_autorizacion_witness :
    validar_email "ana@example.com" = true ∧
    get_usuario_por_correo (Store.mk [usuarioAna]).usuarios "ana@example.com"
      = some usuarioAna ∧
    camposUsuarioOk (recSet usuarioAna "autorizacion" (Val.vbool false)) = true ∧
    ((toggle_autorizacion ⟨some "ana@example.com", some (Val.vbool false)⟩
        (Store.mk [usuarioAna])).writes
      = [recSet usuarioAna "autorizacion" (Val.vbool false)] ∧
     (toggle_autorizacion ⟨some "ana@example.com", some (Val.vbool false)⟩
        (Store.mk [usuarioAna])).resp.statusCode = 200 ∧
     recGet (recSet usuarioAna "autorizacion" (Val.vbool false)) "autorizacion"
       = some (Val.vbool false) ∧
     recGet (recSet usuarioAna "autorizacion" (Val.vbool false)) "nombre"
       = recGet usuarioAna "nombre") :=
  ⟨by decide, rfl, rfl,
   C10_toggle_only_changes_autorizacion "ana@example.com" false
     (Store.mk [usuarioAna]) usuarioAna "nombre" (by decide) rfl rfl (by decide)⟩

/-! ## C2 -/

/-- C2 counterexample: the claim asserts that a consultation request
whose mode is outside the resolver's fixed set yields a 400 listing the
valid modes.  `MentorAcademico` is outside the factory's registered set,
yet a request carrying it (for an unknown user) yields 404, not 400: the
handler validates the mode against `Config.CONTEXTOS_DISPONIBLES` — a
different set — and proceeds to the user lookup. -/
theorem C2_mode_outside_resolver_not_400 :
    contextoFactoryTable.lookup "MentorAcademico" = none ∧
    agente_consultar (fun _ => "") "r1"
        ⟨some "a@b.com", some "MentorAcademico", some "hola"⟩ (Store.mk []) =
      ⟨⟨404, "Usuario no encontrado", "No existe usuario con correo a@b.com"⟩,
       [], false⟩ :=
  ⟨rfl, rfl⟩

/-- C2 (amended): for every mode name outside *both* fixed sets — the
factory's registered table and `Config.CONTEXTOS_DISPONIBLES` —
`ContextoFactory.get_contexto` raises the invalid-context `ValueError`
(whose message lists the factory's modes) without constructing any context,
and a consultation request carrying such a mode is rejected with a 400
listing the configured modes before any user lookup.  (The two sets differ,
which is why the original claim fails: a configured academic mode is outside
the factory's set yet passes the handler's validation.) -/
theorem C2_unknown_mode_rejected (gemini : String → String)
    (newId n c m : String) (store : Store)
    (hfac : contextoFactoryTable.lookup n = none)
    (hcfg : validar_contexto n = false)
    (hc : validar_email c = true) :
    get_contexto n = Except.error (contextoNoExisteMsg n) ∧
    agente_consultar gemini newId ⟨some c, some n, some m⟩ store =
      ⟨⟨400, "Contexto inválido",
        "El contexto debe ser uno de: " ++ String.intercalate ", " CONTEXTOS_DISPONIBLES⟩,
       [], false⟩ := by
  have hce := optTruthy_of_validar_email c hc
  constructor
  · unfold get_contexto
    rw [hfac]
  · simp [agente_consultar, hce, hc, hcfg]

/-- Witness for the amended C2 at the unknown mode `Foo`. -/
theorem C2_unknown_mode_rejected_witness :
    contextoFactoryTable.lookup "Foo" = none ∧
    validar_contexto "Foo" = false ∧
    validar_email "a@b.com" = true ∧
    (get_contexto "Foo" = Except.error (contextoNoExisteMsg "Foo") ∧
     agente_consultar (fun _ => "") "r1"
        ⟨some "a@b.com", some "Foo", some "hola"⟩ (Store.mk []) =
      ⟨⟨400, "Contexto inválido",
        "El contexto debe ser uno de: " ++ String.intercalate ", " CONTEXTOS_DISPONIBLES⟩,
       [], false⟩) :=
  ⟨rfl, by decide, by decide,
   C2_unknown_mode_rejected (fun _ => "") "r1" "Foo" "a@b.com" "hola"
     (Store.mk []) rfl (by decide) (by decide)⟩

/-! ## C3 -/

/-- A one-record history none of whose records carries any tracked metric. -/
def histSinMetricas : List RegistroSalud := [{}]

theorem roundHalfEven_zero : roundHalfEven 0 = 0 := by
  norm_num [roundHalfEven]

theorem fmtMiles0_zero : fmtMiles0 0 = "0" := by
  simp only [fmtMiles0, roundHalfEven_zero]
  decide

theorem fmtF1_zero : fmtF1 0 = "0.0" := by
  have h10 : (10 : ℚ) * 0 = 0 := by norm_num
  simp only [fmtF1, h10, roundHalfEven_zero]
  decide

theorem estadisticas_sin_metricas : calcular_estadisticas histSinMetricas
    = some ⟨1, 0, 0, 0, 0, 0, 0, none⟩ := rfl

set_option maxRecDepth 4000 in
theorem render_sin_metricas :
    formatear_datos_contexto (calcular_estadisticas histSinMetricas)
    = "\nESTADÍSTICAS DEL ÚLTIMO MES:\n\nActividad Física:\n  • Promedio de pasos diarios: 0\n  • Máximo de pasos en un día: 0\n  • Mínimo de pasos en un día: 0\n\nSueño:\n  • Promedio de horas de sueño: 0.0h\n  • Mejor noche: 0.0h\n  • Peor noche: 0.0h\n\nRitmo Cardíaco (cuando disponible):\n  • Promedio: None bpm\n  \nRegistros totales: 1 días\n" := by
  rw [estadisticas_sin_metricas]
  simp only [formatear_datos_contexto, fmtMiles0_zero, fmtF1_zero, fcStr]
  decide

set_option maxRecDepth 40000 in
/-- C3 counterexample: with one metric-free record in the lookback
window, the step metric has zero contributing values, yet the rendered
statistics section shows it as `0` (and the heart-rate mean as `None`)
instead of omitting it. -/
theorem C3_zero_metric_rendered_as_zero :
    pasosList histSinMetricas = [] ∧
    fcList histSinMetricas = [] ∧
    hasSub (formatear_datos_contexto (calcular_estadisticas histSinMetricas))
      "Promedio de pasos diarios: 0" = true ∧
    hasSub (formatear_datos_contexto (calcular_estadisticas histSinMetricas))
      "Promedio: None bpm" = true := by
  refine ⟨rfl, rfl, ?_, ?_⟩ <;> rw [render_sin_metricas] <;> decide

set_option maxRecDepth 40000 in
/-- C3 (amended): only when the history itself is empty is the whole
statistics section replaced by the no-data sentence; when records exist but
a metric has zero contributing values, the metric is still rendered — steps
with the value `0` (and the heart-rate mean as `None`), not omitted. -/
theorem C3_zero_metric_amended (hist : List RegistroSalud)
    (hne : hist.isEmpty = false) (hp : pasosList hist = []) :
    (calcular_estadisticas hist).map Estadisticas.pasos_promedio = some 0 ∧
    (calcular_estadisticas hist).map Estadisticas.pasos_min = some 0 ∧
    calcular_estadisticas [] = none ∧
    formatear_datos_contexto none = noDataEstadisticasMsg ∧
    hasSub (formatear_datos_contexto (calcular_estadisticas histSinMetricas))
      "Promedio de pasos diarios: 0" = true := by
  refine ⟨?_, ?_, rfl, rfl, by rw [render_sin_metricas]; decide⟩
  · simp [calcular_estadisticas, hne, hp]
  · simp [calcular_estadisticas, hne, hp]

/-- Witness for the amended C3 at the metric-free one-record history. -/
theorem C3_zero_metric_amended_witness :
    histSinMetricas.isEmpty = false ∧
    pasosList histSinMetricas = [] ∧
    ((calcular_estadisticas histSinMetricas).map Estadisticas.pasos_promedio
        = some 0 ∧
     (calcular_estadisticas histSinMetricas).map Estadisticas.pasos_min
        = some 0 ∧
     calcular_estadisticas [] = none ∧
     formatear_datos_contexto none = noDataEstadisticasMsg ∧
     hasSub (formatear_datos_contexto (calcular_estadisticas histSinMetricas))
       "Promedio de pasos diarios: 0" = true) :=
  ⟨rfl, rfl, C3_zero_metric_amended histSinMetricas rfl rfl⟩

/-! ## C4 -/

/-- A record whose wearables sub-dict carries the given step count. -/
def rPasos (q : ℚ) : RegistroSalud := { wearables := { pasos := some q } }

/-- The synthetic history with step values `[100, 200, 300]`. -/
def hist123 : List RegistroSalud := [rPasos 100, rPasos 200, rPasos 300]

/-- A history whose records carry the non-null step values `[0, 100]`. -/
def histConCero : List RegistroSalud := [rPasos 0, rPasos 100]

/-- Modelled from the claim's words: the non-null step values of the
records — the wearables field when present, else the sensors field. -/
def pasosNoNulos (hist : List RegistroSalud) : List ℚ :=
  hist.filterMap (fun r =>
    match r.wearables.pasos with
    | some q => some q
    | none => r.sensores.pasos)

theorem pasosList_hist123 : pasosList hist123 = [100, 200, 300] := by
  simp only [pasosList, collectMetric, hist123, List.filterMap_cons,
    List.filterMap_nil]
  norm_num [qTruthy, pasosDe, pyOrQ, rPasos]

theorem calcular_hist123 :
    calcular_estadisticas hist123 = some ⟨3, 200, 300, 100, 0, 0, 0, none⟩ := by
  have hs : suenoList hist123 = [] := rfl
  have hf : fcList hist123 = [] := rfl
  simp only [calcular_estadisticas, pasosList_hist123, hs, hf]
  norm_num [hist123, qMax, qMin, List.foldl, max_def, min_def,
    List.sum_cons, List.sum_nil]

theorem pasosList_histConCero : pasosList histConCero = [100] := by
  simp only [pasosList, collectMetric, histConCero, List.filterMap_cons,
    List.filterMap_nil]
  norm_num [qTruthy, pasosDe, pyOrQ, rPasos]

theorem calcular_histConCero :
    calcular_estadisticas histConCero
      = some ⟨2, 100, 100, 100, 0, 0, 0, none⟩ := by
  have hs : suenoList histConCero = [] := rfl
  have hf : fcList histConCero = [] := rfl
  simp only [calcular_estadisticas, pasosList_histConCero, hs, hf]
  norm_num [histConCero, qMax, qMin, List.foldl, List.sum_cons, List.sum_nil]

/-- C4 counterexample: the aggregation does not collect all non-null
values — a recorded step count of `0` is non-null but falsy, so it is
skipped: over non-null values `[0, 100]` the code reports `min = 100` and
`mean = 100`, where the claim requires `min = 0` and `mean = 50`. -/
theorem C4_nonnull_zero_skipped :
    pasosNoNulos histConCero = [0, 100] ∧
    qMin (pasosNoNulos histConCero) = 0 ∧
    (calcular_estadisticas histConCero).map Estadisticas.pasos_min
      = some 100 ∧
    (calcular_estadisticas histConCero).map Estadisticas.pasos_promedio
      = some 100 ∧
    (100 : ℚ) ≠ 0 := by
  refine ⟨rfl, ?_, ?_, ?_, by norm_num⟩
  · show qMin (pasosNoNulos histConCero) = 0
    have h : pasosNoNulos histConCero = [0, 100] := rfl
    rw [h]
    norm_num [qMin, List.foldl, min_def]
  · rw [calcular_histConCero]; rfl
  · rw [calcular_histConCero]; rfl

/-- C4 (amended): the aggregation collects, per metric, exactly the
truthy values — non-null *and* non-zero — from the lookback window, and
computes arithmetic mean, maximum and minimum of that collection; in
particular, for step values `[100, 200, 300]` it yields mean 200,
max 300 and min 100. -/
theorem C4_truthy_collection_and_stats (hist : List RegistroSalud)
    (r : RegistroSalud) (q : ℚ)
    (hr : r ∈ hist) (hq : pasosDe r = some q) (hqz : q ≠ 0) :
    q ∈ pasosList hist ∧
    (∀ p ∈ pasosList hist, p ≠ 0) ∧
    (calcular_estadisticas hist123).map Estadisticas.pasos_promedio
      = some 200 ∧
    (calcular_estadisticas hist123).map Estadisticas.pasos_max = some 300 ∧
    (calcular_estadisticas hist123).map Estadisticas.pasos_min = some 100 := by
  refine ⟨?_, ?_, by rw [calcular_hist123]; rfl, by rw [calcular_hist123]; rfl,
    by rw [calcular_hist123]; rfl⟩
  · unfold pasosList collectMetric
    rw [List.mem_filterMap]
    exact ⟨r, hr, by simp [hq, qTruthy, hqz]⟩
  · intro p hp
    unfold pasosList collectMetric at hp
    rw [List.mem_filterMap] at hp
    obtain ⟨r', hr', hf⟩ := hp
    by_cases ht : qTruthy (pasosDe r') = true
    · rw [if_pos ht] at hf
      rw [hf] at ht
      simpa [qTruthy] using ht
    · rw [if_neg ht] at hf
      cases hf

/-- Witness for the amended C4 at the `[100, 200, 300]` history. -/
theorem C4_truthy_collection_and_stats_witness :
    rPasos 100 ∈ hist123 ∧
    pasosDe (rPasos 100) = some 100 ∧
    (100 : ℚ) ≠ 0 ∧
    ((100 : ℚ) ∈ pasosList hist123 ∧
     (∀ p ∈ pasosList hist123, p ≠ 0) ∧
     (calcular_estadisticas hist123).map Estadisticas.pasos_promedio
       = some 200 ∧
     (calcular_estadisticas hist123).map Estadisticas.pasos_max = some 300 ∧
     (calcular_estadisticas hist123).map Estadisticas.pasos_min = some 100) :=
  ⟨by decide, rfl, by decide,
   C4_truthy_collection_and_stats hist123 (rPasos 100) 100
     (by decide) rfl (by decide)⟩

/-! ## C5 -/

theorem intercalate_singleton (s x : String) : String.intercalate s [x] = x :=
  rfl

/-- A substring witness given an explicit three-way decomposition of the
string's character data. -/
theorem hasSub_of_parts (s pre pat rest : String)
    (h : s.data = pre.data ++ (pat.data ++ rest.data)) :
    hasSub s pat = true := by
  simp only [hasSub, h]
  exact hasSubL_mid pre.data pat.data rest.data

/-- The summary text of a record is contained verbatim in the
`BaseContexto` memory rendering — no character budget is applied. -/
theorem formatear_memoria_bc_full (mem : MemoriaRec) (r : String)
    (h : mem.resumen_conversacion = some r) :
    hasSub (formatear_memoria_bc [mem]) r = true := by
  apply hasSub_of_parts _
    (toString 1 ++ ". [" ++ mem.fecha.getD "Fecha desconocida"
      ++ "] - Intención: " ++ mem.intencion_detectada.getD "No detectada"
      ++ "\n   Resumen: ") r ""
  simp [formatear_memoria_bc, memoriaLineaBC, intercalate_singleton, h,
    String.data_append]

/-- The summary text of a record is contained verbatim in the
`BasePrompt` memory rendering — no character budget is applied (only the
date is sliced, to 10 characters). -/
theorem formatear_memoria_bp_full (mem : MemoriaRec) (r : String)
    (h : mem.resumen_conversacion = some r) :
    hasSub (formatear_memoria_bp [mem]) r = true := by
  apply hasSub_of_parts _
    ("CONTEXTO DE CONVERSACIONES PREVIAS:\n\n"
      ++ (toString 1 ++ ". [" ++ strTake 10 (mem.fecha.getD "Fecha desconocida")
          ++ "] Intención: " ++ mem.intencion_detectada.getD "No identificada"
          ++ "\n   ")) r "\n\n"
  simp [formatear_memoria_bp, memoriaBloqueBP, String.join, h,
    String.data_append]

/-- The `BaseContexto` rendering depends only on the first five records. -/
theorem formatear_memoria_bc_take5 (memoria : List MemoriaRec) :
    formatear_memoria_bc memoria = formatear_memoria_bc (memoria.take 5) := by
  cases memoria with
  | nil => rfl
  | cons a t => simp [formatear_memoria_bc, List.take_take]

/-- The `BasePrompt` rendering depends only on the first five records. -/
theorem formatear_memoria_bp_take5 (memoria : List MemoriaRec) :
    formatear_memoria_bp memoria = formatear_memoria_bp (memoria.take 5) := by
  cases memoria with
  | nil => rfl
  | cons a t => simp [formatear_memoria_bp, List.take_take]

/-- A 6000-character interaction summary. -/
def resumenLargo : String := String.mk (List.replicate 6000 'a')

/-- A memory record carrying the long summary. -/
def memLarga : MemoriaRec := { resumen_conversacion := some resumenLargo }

/-- A recent-interactions list of 20 records. -/
def memoria20 : List MemoriaRec :=
  (List.range 20).map (fun i => { fecha := some (toString i) })

/-- C5 counterexample: the claim asserts each rendered record's summary
text is truncated to a fixed character budget; in fact no truncation is
applied — a 6000-character summary appears verbatim in both memory
renderings. -/
theorem C5_summary_not_truncated :
    resumenLargo.length = 6000 ∧
    hasSub (formatear_memoria_bc [memLarga]) resumenLargo = true ∧
    hasSub (formatear_memoria_bp [memLarga]) resumenLargo = true :=
  ⟨by simp only [resumenLargo, String.length, List.length_replicate],
   formatear_memoria_bc_full memLarga resumenLargo rfl,
   formatear_memoria_bp_full memLarga resumenLargo rfl⟩

/-- C5 (amended): recent-interaction rendering includes only the first
5 records of the list (so 20 records render exactly as their first 5, in
list order, which the repository loads most-recent-first), but each
record's summary text is included in full — no character budget is applied
to it (only the date field is sliced to 10 characters in the
prompt-assembler variant). -/
theorem C5_first5_and_full_summaries (memoria : List MemoriaRec)
    (mem : MemoriaRec) (r : String)
    (h : mem.resumen_conversacion = some r) :
    formatear_memoria_bc memoria = formatear_memoria_bc (memoria.take 5) ∧
    formatear_memoria_bp memoria = formatear_memoria_bp (memoria.take 5) ∧
    memoria20.length = 20 ∧
    (memoria20.take 5).length = 5 ∧
    hasSub (formatear_memoria_bc [mem]) r = true ∧
    hasSub (formatear_memoria_bp [mem]) r = true :=
  ⟨formatear_memoria_bc_take5 memoria, formatear_memoria_bp_take5 memoria,
   by simp [memoria20],
   by simp [memoria20],
   formatear_memoria_bc_full mem r h,
   formatear_memoria_bp_full mem r h⟩

/-- Witness for the amended C5 at the 20-record list and the long-summary
record. -/
theorem C5_first5_and_full_summaries_witness :
    memLarga.resumen_conversacion = some resumenLargo ∧
    (formatear_memoria_bc memoria20 = formatear_memoria_bc (memoria20.take 5) ∧
     formatear_memoria_bp memoria20 = formatear_memoria_bp (memoria20.take 5) ∧
     memoria20.length = 20 ∧
     (memoria20.take 5).length = 5 ∧
     hasSub (formatear_memoria_bc [memLarga]) resumenLargo = true ∧
     hasSub (formatear_memoria_bp [memLarga]) resumenLargo = true) :=
  ⟨rfl, C5_first5_and_full_summaries memoria20 memLarga resumenLargo rfl⟩

end MultiAgent
